import Mathlib

/-!
Verification development for the CmdBell repository.

The definitions below are a shallow embedding of the Go sources:
`src/main.go` (local-command path), the Docker event monitor
(`docker_monitor.go`: `DockerMonitor`, `handleExecCreate`,
`handleExecStart`, `handleExecDie`), the HTTP ingress
(`http_server.go`: `NotificationRequest`, `handleNotification`),
the notifier (`notification.go`: `sendNotification`,
`sendContainerNotification`) and `config.go` (`Config`,
`getDefaultConfig`).  Durations and timestamps are modelled as `Int`
nanoseconds (Go `time.Duration` / `time.Time` at nanosecond
resolution; the Go zero `time.Time` is modelled as instant `0`).
Console log lines printed by the monitor handlers are elided; the
observable output of a handler is the list of notification dispatches
it performs.  External effects (the `docker inspect` subprocess, the
system clock, the native-alert subprocess, JSON decoding of the HTTP
body) are passed to each function as explicit arguments.
-/

namespace CmdBell

/-- Nanoseconds, the unit of Go `time.Duration`. -/
abbrev Duration := Int

/-- One second in nanoseconds (`time.Second`). -/
def second : Duration := 1000000000

/-- `const MIN_DURATION = 15 * time.Second` from `src/main.go`. -/
def MIN_DURATION : Duration := 15 * second

/-- Go `Duration.Round(time.Second)` for nonnegative durations: round
to the nearest multiple of a second, half away from zero.  (Negative
durations never reach this function in the embedded code paths.) -/
def roundToSecond (d : Duration) : Duration :=
  let r := d % second
  if r + r < second then d - r else d + (second - r)

/-- The `general` section of `Config` in `src/config.go`. -/
structure GeneralConfig where
  minDuration : String
  minDurationTime : Duration
  enableNotify : Bool
  deriving DecidableEq

/-- The `docker` section of `Config` in `src/config.go`. -/
structure DockerConfig where
  monitor : Bool
  filters : List String
  deriving DecidableEq

/-- The `http` section of `Config` in `src/config.go`. -/
structure HTTPConfig where
  port : Int
  enabled : Bool
  deriving DecidableEq

/-- The `notification` section of `Config` in `src/config.go`. -/
structure NotificationConfig where
  method : String
  sound : Bool
  position : String
  deriving DecidableEq

/-- `Config` from `src/config.go`. -/
structure Config where
  general : GeneralConfig
  docker : DockerConfig
  http : HTTPConfig
  notification : NotificationConfig
  deriving DecidableEq

/-- `getDefaultConfig` from `src/config.go`. -/
def getDefaultConfig : Config :=
  { general := { minDuration := "15s", minDurationTime := 15 * second, enableNotify := true }
    docker := { monitor := true, filters := [] }
    http := { port := 59721, enabled := true }
    notification := { method := "auto", sound := true, position := "top-right" } }

/-- The spec document defines the policy gate as the pure function
`ShouldNotify(duration, config) = duration >= config.minimumDuration
AND config.notificationsEnabled` (spec section 4.3).  This definition
follows the spec wording, to be compared against the gates found in
the code paths. -/
def ShouldNotify (duration : Duration) (c : Config) : Bool :=
  decide (c.general.minDurationTime ≤ duration) && c.general.enableNotify

/-- One dispatch to `sendContainerNotification(command, containerName,
duration, success)`: the argument tuple of a notification request as
produced by the Docker monitor and the HTTP ingress. -/
structure Notification where
  command : String
  containerName : String
  duration : Duration
  success : Bool
  deriving DecidableEq

/-! ### Docker event monitor (`docker_monitor.go`) -/

/-- `DockerEventActor` from `docker_monitor.go`; `attributes` is the
JSON attribute map, modelled as an association list. -/
structure DockerEventActor where
  id : String
  attributes : List (String × String)
  deriving DecidableEq

/-- `DockerEvent` from `docker_monitor.go`. -/
structure DockerEvent where
  type : String
  action : String
  id : String
  actor : DockerEventActor
  time : Int
  deriving DecidableEq

/-- Go map read `attrs[k]` on a `map[string]string`: the zero value
`""` when the key is absent. -/
def attrGet : List (String × String) → String → String
  | [], _ => ""
  | (key, v) :: rest, k => if key = k then v else attrGet rest k

/-- `event.Actor.Attributes[k]`. -/
def getAttr (a : DockerEventActor) (k : String) : String :=
  attrGet a.attributes k

/-- `ContainerExecInfo` from `docker_monitor.go`.  `startTime` is the
Go `time.Time` field; the zero time (never set by a start fact) is
the instant `0`. -/
structure ContainerExecInfo where
  containerID : String
  containerName : String
  command : String
  startTime : Int
  deriving DecidableEq

/-- The mutable working set `execMap map[string]*ContainerExecInfo` of
`DockerMonitor`, modelled as an association list with Go map
semantics (keys unique). -/
structure DockerMonitor where
  execMap : List (String × ContainerExecInfo)
  deriving DecidableEq

/-- Go map read `m[k]` returning presence. -/
def mapLookup : List (String × ContainerExecInfo) → String → Option ContainerExecInfo
  | [], _ => none
  | (key, v) :: rest, k => if key = k then some v else mapLookup rest k

/-- Go map write `m[k] = v`: replace the entry if the key is present,
otherwise add it. -/
def mapInsert : List (String × ContainerExecInfo) → String → ContainerExecInfo →
    List (String × ContainerExecInfo)
  | [], k, v => [(k, v)]
  | (key, w) :: rest, k, v =>
    if key = k then (k, v) :: rest else (key, w) :: mapInsert rest k v

/-- Go `delete(m, k)`. -/
def mapErase : List (String × ContainerExecInfo) → String → List (String × ContainerExecInfo)
  | [], _ => []
  | (key, v) :: rest, k =>
    if key = k then mapErase rest k else (key, v) :: mapErase rest k

/-- Go `strings.TrimPrefix(s, "/")`. -/
def trimSlash (s : String) : String :=
  if s.startsWith "/" then s.drop 1 else s

/-- Command extraction in `handleExecCreate`: the text after the first
`": "` in the action (`"exec_create: sleep 17"` gives `"sleep 17"`),
or `"unknown"` when the separator is absent. -/
def extractCommand (action : String) : String :=
  match action.splitOn ": " with
  | [] => "unknown"
  | [_] => "unknown"
  | _ :: rest => String.intercalate ": " rest

/-- `handleExecCreate` from `docker_monitor.go`.  `inspectResult` is
the outcome of the `docker inspect --format {{.Name}}` subprocess
(stdout on success).  On failure the handler logs and returns without
touching the map; on success it inserts a fresh record (with the Go
zero `StartTime`).  The console print is elided. -/
def handleExecCreate (dm : DockerMonitor) (event : DockerEvent)
    (inspectResult : Except String String) : DockerMonitor × List Notification :=
  let execID := getAttr event.actor "execID"
  let containerID := event.id
  match inspectResult with
  | .error _ => (dm, [])
  | .ok output =>
    let containerName := trimSlash output.trim
    let command := extractCommand event.action
    ({ execMap := mapInsert dm.execMap execID
        { containerID := containerID, containerName := containerName,
          command := command, startTime := 0 } }, [])

/-- `handleExecStart` from `docker_monitor.go`: if a record exists for
the `execID`, set its `StartTime` to the current time; otherwise do
nothing. -/
def handleExecStart (dm : DockerMonitor) (event : DockerEvent) (now : Int) :
    DockerMonitor × List Notification :=
  let execID := getAttr event.actor "execID"
  match mapLookup dm.execMap execID with
  | none => (dm, [])
  | some info =>
    ({ execMap := mapInsert dm.execMap execID { info with startTime := now } }, [])

/-- `handleExecDie` from `docker_monitor.go`.  `cfg` is the value of
the global `globalConfig` pointer (`none` models `nil`).  If a record
exists: compute the duration, evaluate
`globalConfig != nil && duration >= MinDurationTime && EnableNotify`,
dispatch when it holds, and delete the record unconditionally. -/
def handleExecDie (dm : DockerMonitor) (event : DockerEvent) (now : Int)
    (cfg : Option Config) : DockerMonitor × List Notification :=
  let execID := getAttr event.actor "execID"
  match mapLookup dm.execMap execID with
  | none => (dm, [])
  | some info =>
    let duration := now - info.startTime
    let exitCode := getAttr event.actor "exitCode"
    let success := exitCode = "0"
    let gate :=
      match cfg with
      | none => false
      | some c => decide (c.general.minDurationTime ≤ duration) && c.general.enableNotify
    let notifs :=
      if gate then
        [{ command := info.command, containerName := info.containerName,
           duration := duration, success := success }]
      else []
    ({ execMap := mapErase dm.execMap execID }, notifs)

/-! ### Go `time.ParseDuration` (interface boundary)

Faithful to the stdlib grammar `[+-]?(digits(.digits)?unit)+` with
units ns, us, µs, μs, ms, s, m, h, and the special case `"0"`.
Overflow checks are elided (values are unbounded here) and the
fractional part is computed with exact integer division where Go uses
float64 arithmetic; no embedded code path feeds it a fractional
duration. -/

/-- Digit run, most significant first (Go `leadingInt`). -/
def leadingIntAux (acc : Int) : List Char → Int × List Char
  | [] => (acc, [])
  | c :: rest =>
    if c.isDigit then leadingIntAux (acc * 10 + ((c.toNat - 48 : Nat) : Int)) rest
    else (acc, c :: rest)

/-- Fraction digit run: value and scale (Go `leadingFraction`). -/
def leadingFractionAux (f : Int) (scale : Int) : List Char → Int × Int × List Char
  | [] => (f, scale, [])
  | c :: rest =>
    if c.isDigit then
      leadingFractionAux (f * 10 + ((c.toNat - 48 : Nat) : Int)) (scale * 10) rest
    else (f, scale, c :: rest)

/-- Unit name: the run of characters up to the next digit or dot. -/
def unitChars : List Char → List Char × List Char
  | [] => ([], [])
  | c :: rest =>
    if c = '.' ∨ c.isDigit then ([], c :: rest)
    else
      let (u, r) := unitChars rest
      (c :: u, r)

/-- Go `unitMap`. -/
def unitValue (u : List Char) : Option Int :=
  if u = ['n', 's'] then some 1
  else if u = ['u', 's'] then some 1000
  else if u = ['µ', 's'] then some 1000
  else if u = ['μ', 's'] then some 1000
  else if u = ['m', 's'] then some 1000000
  else if u = ['s'] then some 1000000000
  else if u = ['m'] then some 60000000000
  else if u = ['h'] then some 3600000000000
  else none

/-- One `number unit` component of a duration string. -/
def parseComponent (s : List Char) : Option (Int × List Char) :=
  match s with
  | [] => none
  | c :: _ =>
    if ¬(c = '.' ∨ c.isDigit) then none
    else
      let (v, s1) := leadingIntAux 0 s
      let pre : Bool := decide (s1.length < s.length)
      let (f, scale, s2, post) :=
        match s1 with
        | '.' :: rest =>
          let (fv, sc, r) := leadingFractionAux 0 1 rest
          (fv, sc, r, decide (r.length < rest.length))
        | other => (0, 1, other, false)
      if pre = false ∧ post = false then none
      else
        let (u, s3) := unitChars s2
        if u = [] then none
        else
          match unitValue u with
          | none => none
          | some unit => some (v * unit + f * unit / scale, s3)

/-- Component loop; the fuel argument only bounds the recursion and
exceeds the input length at every call site. -/
def parseDurationLoop : Nat → List Char → Option Int
  | _, [] => some 0
  | 0, _ :: _ => none
  | fuel + 1, s =>
    match parseComponent s with
    | none => none
    | some (v, rest) =>
      match parseDurationLoop fuel rest with
      | none => none
      | some d => some (d + v)

/-- Go `time.ParseDuration`; `none` is a parse error. -/
def parseDuration (str : String) : Option Duration :=
  let s0 := str.toList
  let signed :=
    match s0 with
    | '-' :: rest => (true, rest)
    | '+' :: rest => (false, rest)
    | _ => (false, s0)
  let neg := signed.1
  let s := signed.2
  if s = ['0'] then some 0
  else if s = [] then none
  else
    match parseDurationLoop (s.length + 1) s with
    | none => none
    | some d => some (if neg then -d else d)

/-! ### HTTP ingress (`http_server.go`) -/

/-- The JSON body of a `POST /notify` request as it stands on the
wire: each field may be present or absent.  A body that is not valid
JSON at all is modelled as `none` at the call site of
`handleNotification`. -/
structure RawNotificationBody where
  command : Option String
  containerName : Option String
  duration : Option String
  success : Option Bool
  startTime : Option String
  deriving DecidableEq

/-- `NotificationRequest` from `http_server.go`, the decode target
struct. -/
structure NotificationRequest where
  command : String
  containerName : String
  duration : String
  success : Bool
  startTime : String
  deriving DecidableEq

/-- Go `json.Decoder.Decode` into `NotificationRequest`: absent
fields keep the Go zero value (`""` for strings, `false` for bools). -/
def decodeNotificationRequest (b : RawNotificationBody) : NotificationRequest :=
  { command := b.command.getD ""
    containerName := b.containerName.getD ""
    duration := b.duration.getD ""
    success := b.success.getD false
    startTime := b.startTime.getD "" }

/-- HTTP request method as far as `handleNotification` inspects it. -/
inductive HttpMethod where
  | get
  | post
  | other
  deriving DecidableEq

/-- The body `handleNotification` writes: plain text via `http.Error`,
or the JSON object `{status, message}` on success. -/
inductive ResponseBody where
  | errorText (message : String)
  | jsonStatus (status : String) (message : String)
  deriving DecidableEq

/-- An HTTP response: status code and body. -/
structure HttpResponse where
  status : Nat
  body : ResponseBody
  deriving DecidableEq

/-- `handleNotification` from `http_server.go`.  `body` is the decoded
JSON payload (`none` when the payload is not valid JSON).  Returns
the response written to the client and the notification dispatches
performed. -/
def handleNotification (method : HttpMethod) (body : Option RawNotificationBody) :
    HttpResponse × List Notification :=
  if method ≠ HttpMethod.post then
    ({ status := 405, body := .errorText "Method not allowed" }, [])
  else
    match body with
    | none => ({ status := 400, body := .errorText "Invalid JSON payload" }, [])
    | some raw =>
      let req := decodeNotificationRequest raw
      if req.command = "" then
        ({ status := 400, body := .errorText "Missing required field: command" }, [])
      else if req.duration = "" then
        ({ status := 400, body := .errorText "Missing required field: duration" }, [])
      else
        match parseDuration req.duration with
        | none => ({ status := 400, body := .errorText "Invalid duration format" }, [])
        | some duration =>
          let containerName :=
            if req.containerName = "" then "unknown_container" else req.containerName
          ({ status := 200, body := .jsonStatus "success" "Notification sent" },
           [{ command := req.command, containerName := containerName,
              duration := duration, success := req.success }])

/-! ### Notifier (`notification.go`) -/

/-- The structured content of a notification message
(`Command <c> [in <name>] <status> after <rounded duration>`). -/
structure NotifyMessage where
  command : String
  containerName : Option String
  status : String
  durationRounded : Duration
  deriving DecidableEq

/-- Observable steps of one notifier invocation: the console fallback
line, the single call to `sendNativeNotification`, and the log line
written when that call fails. -/
inductive NotifyEffect where
  | console (title : String) (msg : NotifyMessage)
  | native (title : String) (msg : NotifyMessage) (icon : String)
  | logFailure (err : String)
  deriving DecidableEq

/-- Is this effect the console fallback line? -/
def NotifyEffect.isConsole : NotifyEffect → Bool
  | .console _ _ => true
  | _ => false

/-- Is this effect the platform-specific alert attempt? -/
def NotifyEffect.isNative : NotifyEffect → Bool
  | .native _ _ _ => true
  | _ => false

/-- `sendNotification` from `notification.go`.  `nativeResult` is the
outcome of the `sendNativeNotification` subprocess call; the function
prints the console line, makes the one native attempt, and on failure
only prints a log line — it returns normally in both cases. -/
def sendNotification (command : String) (duration : Duration) (success : Bool)
    (nativeResult : Except String Unit) : List NotifyEffect :=
  let status := if success then "completed" else "failed"
  let icon := if success then "✅" else "❌"
  let msg : NotifyMessage :=
    { command := command, containerName := none, status := status,
      durationRounded := roundToSecond duration }
  [.console "CmdBell" msg, .native "CmdBell" msg icon] ++
    match nativeResult with
    | .ok _ => []
    | .error e => [.logFailure e]

/-- `sendContainerNotification` from `notification.go`: as
`sendNotification` but the message is qualified by the container name
and the title is `CmdBell - Container`. -/
def sendContainerNotification (command : String) (containerName : String)
    (duration : Duration) (success : Bool)
    (nativeResult : Except String Unit) : List NotifyEffect :=
  let status := if success then "completed" else "failed"
  let icon := if success then "✅" else "❌"
  let msg : NotifyMessage :=
    { command := command, containerName := some containerName, status := status,
      durationRounded := roundToSecond duration }
  [.console "CmdBell - Container" msg, .native "CmdBell - Container" msg icon] ++
    match nativeResult with
    | .ok _ => []
    | .error e => [.logFailure e]

/-! ### Local-command path (`executeCommand` in `src/main.go`) -/

/-- Observable steps of `executeCommand`: the `Executing:` banner, a
call to `sendNotification`, and the wrapper process exit (explicit
`os.Exit(1)` on child failure, or falling off `main` with status 0). -/
inductive LocalEvent where
  | execBanner (command : String)
  | notifyCall (command : String) (duration : Duration) (success : Bool)
  | exitProc (code : Nat)
  deriving DecidableEq

/-- Is this step the `sendNotification` call? -/
def LocalEvent.isNotifyCall : LocalEvent → Bool
  | .notifyCall _ _ _ => true
  | _ => false

/-- `executeCommand` from `src/main.go`.  The child process run is
modelled by its observed exit code (`cmd.Run()` returns a non-nil
error exactly when `childExitCode ≠ 0`) and the measured wall-clock
`duration`.  The trace lists the banner, the conditional notification
(`duration >= MIN_DURATION`), and the wrapper exit: `os.Exit(1)` when
the child failed, otherwise normal return (exit status 0). -/
def executeCommand (command : String) (childExitCode : Nat) (duration : Duration) :
    List LocalEvent :=
  [LocalEvent.execBanner command] ++
    (if MIN_DURATION ≤ duration then
      [LocalEvent.notifyCall command duration (childExitCode = 0)]
    else []) ++
    [LocalEvent.exitProc (if childExitCode = 0 then 0 else 1)]

/-! ### Triples of lifecycle facts (for the working-set invariants) -/

/-- The data of one create/start/die triple for a single execution id:
the id, the owning container, the raw action text of the create
event, the `docker inspect` outcome, the two clock readings, and the
reported exit code. -/
structure TripleInput where
  execID : String
  containerID : String
  action : String
  inspect : Except String String
  startAt : Int
  dieAt : Int
  exitCode : String

/-- The `exec_create` event of a triple. -/
def createEvent (t : TripleInput) : DockerEvent :=
  { type := "container", action := t.action, id := t.containerID,
    actor := { id := t.containerID, attributes := [("execID", t.execID)] },
    time := 0 }

/-- The `exec_start` event of a triple. -/
def startEvent (t : TripleInput) : DockerEvent :=
  { type := "container", action := "exec_start: cmd", id := t.containerID,
    actor := { id := t.containerID, attributes := [("execID", t.execID)] },
    time := 0 }

/-- The `exec_die` event of a triple. -/
def dieEvent (t : TripleInput) : DockerEvent :=
  { type := "container", action := "exec_die", id := t.containerID,
    actor := { id := t.containerID,
               attributes := [("execID", t.execID), ("exitCode", t.exitCode)] },
    time := 0 }

/-- Process one create/start/die triple through the three handlers. -/
def processTriple (cfg : Option Config) (dm : DockerMonitor) (t : TripleInput) :
    DockerMonitor × List Notification :=
  let r1 := handleExecCreate dm (createEvent t) t.inspect
  let r2 := handleExecStart r1.1 (startEvent t) t.startAt
  let r3 := handleExecDie r2.1 (dieEvent t) t.dieAt cfg
  (r3.1, r1.2 ++ r2.2 ++ r3.2)

/-- Process a sequence of triples, collecting each triple's
notifications separately. -/
def processTriples (cfg : Option Config) (dm : DockerMonitor) :
    List TripleInput → DockerMonitor × List (List Notification)
  | [] => (dm, [])
  | t :: ts =>
    let r := processTriple cfg dm t
    let rs := processTriples cfg r.1 ts
    (rs.1, r.2 :: rs.2)

/-- The working-set well-formedness: keys are unique (intrinsic to
the Go map being modelled). -/
def DockerMonitor.wf (dm : DockerMonitor) : Prop :=
  (dm.execMap.map Prod.fst).Nodup

/-- The freshly constructed monitor of `NewDockerMonitor`:
`execMap: make(map[string]*ContainerExecInfo)`. -/
def newDockerMonitor : DockerMonitor := { execMap := [] }

/-! ### Concrete inputs used by the closed instances below -/

/-- A record as inserted by a create fact and updated by a start fact
at instant 100. -/
def infoW : ContainerExecInfo :=
  { containerID := "c1", containerName := "devbox", command := "sleep 20", startTime := 100 }

/-- A working set holding exactly the record of execution `"e1"`. -/
def dmW : DockerMonitor := { execMap := [("e1", infoW)] }

/-- An `exec_die` event for execution `"e1"` with exit code 0. -/
def evDieW : DockerEvent :=
  { type := "container", action := "exec_die", id := "c1",
    actor := { id := "c1", attributes := [("execID", "e1"), ("exitCode", "0")] },
    time := 0 }

/-- An `exec_create` event for execution `"exec123456789012"`. -/
def evCreateW : DockerEvent :=
  { type := "container", action := "exec_create: sleep 20", id := "c1",
    actor := { id := "c1", attributes := [("execID", "exec123456789012")] },
    time := 0 }

/-- A record whose start fact never arrived: `startTime` still at the
zero value. -/
def infoW0 : ContainerExecInfo :=
  { containerID := "c1", containerName := "devbox", command := "sleep 20", startTime := 0 }

/-- A working set holding exactly the never-started record of
execution `"e1"`. -/
def dmW0 : DockerMonitor := { execMap := [("e1", infoW0)] }

/-- An `exec_start` event for the unknown execution `"ghost"`. -/
def evStartGhost : DockerEvent :=
  { type := "container", action := "exec_start: sleep 20", id := "c1",
    actor := { id := "c1", attributes := [("execID", "ghost")] },
    time := 0 }

/-- An `exec_die` event for the unknown execution `"ghost"`. -/
def evDieGhost : DockerEvent :=
  { type := "container", action := "exec_die", id := "c1",
    actor := { id := "c1", attributes := [("execID", "ghost"), ("exitCode", "1")] },
    time := 0 }

/-- A well-formed `/notify` body: all fields present, duration "20s". -/
def rawValid : RawNotificationBody :=
  { command := some "sleep 20", containerName := some "devbox",
    duration := some "20s", success := some true, startTime := none }

/-- A `/notify` body with the `duration` field omitted. -/
def rawMissingDuration : RawNotificationBody :=
  { command := some "ls", containerName := none, duration := none,
    success := none, startTime := none }

/-- A well-formed `/notify` body with the `success` field omitted. -/
def rawNoSuccess : RawNotificationBody :=
  { command := some "sleep 20", containerName := some "devbox",
    duration := some "20s", success := none, startTime := none }

/-- The default configuration with notifications switched off. -/
def cfgDisabled : Config :=
  { getDefaultConfig with
    general := { getDefaultConfig.general with enableNotify := false } }

/-- One complete create/start/die triple for execution
`"exec123456789012"`, started at instant 100 and dying 20 seconds
later with exit code 0. -/
def tripleW : TripleInput :=
  { execID := "exec123456789012", containerID := "c1",
    action := "exec_create: sleep 20", inspect := Except.ok "/devbox",
    startAt := 100, dieAt := 100 + 20 * second, exitCode := "0" }

/-! ### Map lemmas -/

theorem mapLookup_insert_self (m : List (String × ContainerExecInfo)) (k : String)
    (v : ContainerExecInfo) : mapLookup (mapInsert m k v) k = some v := by
  induction m with
  | nil => simp [mapInsert, mapLookup]
  | cons e rest ih =>
    obtain ⟨key, w⟩ := e
    by_cases h : key = k
    · simp [mapInsert, h, mapLookup]
    · simp [mapInsert, h, mapLookup, ih]

theorem mapLookup_erase_self (m : List (String × ContainerExecInfo)) (k : String) :
    mapLookup (mapErase m k) k = none := by
  induction m with
  | nil => simp [mapErase, mapLookup]
  | cons e rest ih =>
    obtain ⟨key, w⟩ := e
    by_cases h : key = k
    · simp [mapErase, h, ih]
    · simp [mapErase, h, mapLookup, ih]

theorem mapErase_insert (m : List (String × ContainerExecInfo)) (k : String)
    (v : ContainerExecInfo) : mapErase (mapInsert m k v) k = mapErase m k := by
  induction m with
  | nil => simp [mapInsert, mapErase]
  | cons e rest ih =>
    obtain ⟨key, w⟩ := e
    by_cases h : key = k
    · simp [mapInsert, h, mapErase]
    · simp [mapInsert, h, mapErase, ih]

theorem mapErase_of_lookup_none (m : List (String × ContainerExecInfo)) (k : String)
    (h : mapLookup m k = none) : mapErase m k = m := by
  induction m with
  | nil => simp [mapErase]
  | cons e rest ih =>
    obtain ⟨key, w⟩ := e
    by_cases hk : key = k
    · simp [mapLookup, hk] at h
    · simp only [mapLookup, if_neg hk] at h
      simp [mapErase, hk, ih h]

theorem mem_keys_insert (m : List (String × ContainerExecInfo)) (k a : String)
    (v : ContainerExecInfo) (h : a ∈ (mapInsert m k v).map Prod.fst) :
    a = k ∨ a ∈ m.map Prod.fst := by
  induction m with
  | nil => simpa [mapInsert] using h
  | cons e rest ih =>
    obtain ⟨key, w⟩ := e
    by_cases hk : key = k
    · simp only [mapInsert, if_pos hk, List.map_cons, List.mem_cons] at h
      rcases h with h | h
      · exact Or.inl h
      · exact Or.inr (by simp [h])
    · simp only [mapInsert, if_neg hk, List.map_cons, List.mem_cons] at h
      rcases h with h | h
      · exact Or.inr (by simp [h])
      · rcases ih h with h2 | h2
        · exact Or.inl h2
        · exact Or.inr (by simp [h2])

theorem nodup_keys_insert (m : List (String × ContainerExecInfo)) (k : String)
    (v : ContainerExecInfo) (h : (m.map Prod.fst).Nodup) :
    ((mapInsert m k v).map Prod.fst).Nodup := by
  induction m with
  | nil => simp [mapInsert]
  | cons e rest ih =>
    obtain ⟨key, w⟩ := e
    simp only [List.map_cons, List.nodup_cons] at h
    by_cases hk : key = k
    · subst hk
      have he : mapInsert ((key, w) :: rest) key v = (key, v) :: rest := by
        simp [mapInsert]
      rw [he]
      simp only [List.map_cons, List.nodup_cons]
      exact ⟨h.1, h.2⟩
    · simp only [mapInsert, if_neg hk, List.map_cons, List.nodup_cons]
      refine ⟨?_, ih h.2⟩
      intro hmem
      rcases mem_keys_insert rest k key v hmem with h2 | h2
      · exact hk h2
      · exact h.1 h2

theorem mem_keys_erase (m : List (String × ContainerExecInfo)) (k a : String)
    (h : a ∈ (mapErase m k).map Prod.fst) : a ∈ m.map Prod.fst := by
  induction m with
  | nil => simp [mapErase] at h
  | cons e rest ih =>
    obtain ⟨key, w⟩ := e
    by_cases hk : key = k
    · simp only [mapErase, if_pos hk] at h
      exact (by simp [ih h] : a ∈ ((key, w) :: rest).map Prod.fst)
    · simp only [mapErase, if_neg hk, List.map_cons, List.mem_cons] at h
      rcases h with h | h
      · simp [h]
      · simp [ih h]

theorem nodup_keys_erase (m : List (String × ContainerExecInfo)) (k : String)
    (h : (m.map Prod.fst).Nodup) : ((mapErase m k).map Prod.fst).Nodup := by
  induction m with
  | nil => simp [mapErase]
  | cons e rest ih =>
    obtain ⟨key, w⟩ := e
    simp only [List.map_cons, List.nodup_cons] at h
    by_cases hk : key = k
    · simp only [mapErase, if_pos hk]
      exact ih h.2
    · simp only [mapErase, if_neg hk, List.map_cons, List.nodup_cons]
      exact ⟨fun hmem => h.1 (mem_keys_erase rest k key hmem), ih h.2⟩

/-! ### Attribute lookups on the constructed triple events -/

theorem getAttr_mk_execID (cid x : String) (rest : List (String × String)) :
    getAttr { id := cid, attributes := ("execID", x) :: rest } "execID" = x := by
  simp [getAttr, attrGet]

theorem getAttr_createEvent (t : TripleInput) :
    getAttr (createEvent t).actor "execID" = t.execID := by
  simp [getAttr, createEvent, attrGet]

theorem getAttr_startEvent (t : TripleInput) :
    getAttr (startEvent t).actor "execID" = t.execID := by
  simp [getAttr, startEvent, attrGet]

theorem getAttr_dieEvent (t : TripleInput) :
    getAttr (dieEvent t).actor "execID" = t.execID := by
  simp [getAttr, dieEvent, attrGet]

/-! ### Handler-level lemmas -/

theorem erase_insert_insert (m : List (String × ContainerExecInfo)) (k : String)
    (v w : ContainerExecInfo) (h : mapLookup m k = none) :
    mapErase (mapInsert (mapInsert m k v) k w) k = m := by
  rw [mapErase_insert, mapErase_insert, mapErase_of_lookup_none m k h]

theorem wf_handleExecCreate (dm : DockerMonitor) (ev : DockerEvent)
    (r : Except String String) (h : dm.wf) : ((handleExecCreate dm ev r).1).wf := by
  cases r with
  | error e => simpa [handleExecCreate] using h
  | ok out =>
    simp only [handleExecCreate]
    exact nodup_keys_insert _ _ _ h

theorem wf_handleExecStart (dm : DockerMonitor) (ev : DockerEvent) (now : Int)
    (h : dm.wf) : ((handleExecStart dm ev now).1).wf := by
  cases hl : mapLookup dm.execMap (getAttr ev.actor "execID") with
  | none => simpa [handleExecStart, hl] using h
  | some info =>
    simp only [handleExecStart, hl]
    exact nodup_keys_insert _ _ _ h

theorem wf_handleExecDie (dm : DockerMonitor) (ev : DockerEvent) (now : Int)
    (cfg : Option Config) (h : dm.wf) : ((handleExecDie dm ev now cfg).1).wf := by
  cases hl : mapLookup dm.execMap (getAttr ev.actor "execID") with
  | none => simpa [handleExecDie, hl] using h
  | some info =>
    simp only [handleExecDie, hl]
    exact nodup_keys_erase _ _ h

theorem handleExecDie_lookup_after (dm : DockerMonitor) (ev : DockerEvent) (now : Int)
    (cfg : Option Config) :
    mapLookup ((handleExecDie dm ev now cfg).1).execMap (getAttr ev.actor "execID") = none := by
  cases hl : mapLookup dm.execMap (getAttr ev.actor "execID") with
  | none => simp [handleExecDie, hl]
  | some info =>
    simp only [handleExecDie, hl]
    exact mapLookup_erase_self _ _

theorem processTriple_restore (cfg : Option Config) (dm : DockerMonitor) (t : TripleInput)
    (h : mapLookup dm.execMap t.execID = none) :
    (processTriple cfg dm t).1 = dm ∧ (processTriple cfg dm t).2.length ≤ 1 := by
  cases hi : t.inspect with
  | error e =>
    have hc : handleExecCreate dm (createEvent t) t.inspect = (dm, []) := by
      rw [hi]; simp [handleExecCreate]
    have hs : handleExecStart dm (startEvent t) t.startAt = (dm, []) := by
      simp [handleExecStart, getAttr_startEvent, h]
    have hd : handleExecDie dm (dieEvent t) t.dieAt cfg = (dm, []) := by
      simp [handleExecDie, getAttr_dieEvent, h]
    simp [processTriple, hc, hs, hd]
  | ok out =>
    unfold processTriple
    rw [hi]
    simp only [handleExecCreate, createEvent, getAttr_mk_execID]
    simp only [handleExecStart, startEvent, getAttr_mk_execID, mapLookup_insert_self]
    simp only [handleExecDie, dieEvent, getAttr_mk_execID, mapLookup_insert_self]
    refine ⟨?_, ?_⟩
    · rw [erase_insert_insert dm.execMap t.execID _ _ h]
    · simp only [List.nil_append]
      split <;> simp

theorem processTriples_from_empty (cfg : Option Config) (ts : List TripleInput) :
    (processTriples cfg newDockerMonitor ts).1 = newDockerMonitor ∧
    ∀ l ∈ (processTriples cfg newDockerMonitor ts).2, l.length ≤ 1 := by
  induction ts with
  | nil => simp [processTriples]
  | cons t ts ih =>
    have hr := processTriple_restore cfg newDockerMonitor t (by simp [newDockerMonitor, mapLookup])
    constructor
    · simp only [processTriples, hr.1]
      exact ih.1
    · intro l hl
      simp only [processTriples, hr.1, List.mem_cons] at hl
      rcases hl with hl | hl
      · exact hl ▸ hr.2
      · exact ih.2 l hl

/-! ### Claim theorems -/

/-- C3 is refuted at a concrete input: a create fact whose
`docker inspect` lookup fails inserts no record at all — the lookup
of the fact's `executionID` in the resulting working set is `none`,
not a record with a fallback placeholder name. -/
theorem C3_fallback_record_counterexample :
    mapLookup ((handleExecCreate newDockerMonitor evCreateW
        (Except.error "inspect failed")).1).execMap "exec123456789012" = none := by
  rfl

/-- C3 (amended): when the container-name lookup on `subjectID` fails,
the create fact is dropped entirely — the handler returns with the
working set unchanged and no notification, rather than inserting a
record with a fallback name.  The handler does return normally (the
failure is logged and does not halt event processing). -/
theorem C3_create_lookup_failure_drops_fact (dm : DockerMonitor) (ev : DockerEvent)
    (e : String) :
    handleExecCreate dm ev (Except.error e) = (dm, []) := by
  simp [handleExecCreate]

/-- C5: a start or die fact whose `executionID` has no record in the
working set is a silent no-op — the state is unchanged and no
notification is produced — and a start with no prior create followed
by a die for the same id produces zero notifications. -/
theorem C5_unknown_id_noop (dm : DockerMonitor) (evS evD : DockerEvent)
    (nowS nowD : Int) (cfg : Option Config)
    (hS : mapLookup dm.execMap (getAttr evS.actor "execID") = none)
    (hD : getAttr evD.actor "execID" = getAttr evS.actor "execID") :
    handleExecStart dm evS nowS = (dm, []) ∧
    handleExecDie dm evD nowD cfg = (dm, []) ∧
    (handleExecDie (handleExecStart dm evS nowS).1 evD nowD cfg).2 = [] := by
  have h1 : handleExecStart dm evS nowS = (dm, []) := by simp [handleExecStart, hS]
  have hD2 : mapLookup dm.execMap (getAttr evD.actor "execID") = none := by
    rw [hD]; exact hS
  have h2 : handleExecDie dm evD nowD cfg = (dm, []) := by simp [handleExecDie, hD2]
  exact ⟨h1, h2, by rw [h1]; simp [h2]⟩

/-- C5 instantiated on the empty working set with the unknown id
`"ghost"`, notifications enabled. -/
theorem C5_unknown_id_noop_witness :
    handleExecStart newDockerMonitor evStartGhost 5 = (newDockerMonitor, []) ∧
    handleExecDie newDockerMonitor evDieGhost 9 (some getDefaultConfig) =
      (newDockerMonitor, []) ∧
    (handleExecDie (handleExecStart newDockerMonitor evStartGhost 5).1 evDieGhost 9
        (some getDefaultConfig)).2 = [] :=
  C5_unknown_id_noop newDockerMonitor evStartGhost evDieGhost 5 9
    (some getDefaultConfig) (by rfl) (by rfl)

/-- C6: for a die fact with a matching record and a loaded config,
a notification is dispatched iff the computed duration satisfies the
spec gate `ShouldNotify` — `d >= minimumDuration AND
notificationsEnabled` — and in the boundary case `d ==
minimumDuration` (with notifications enabled) the notification
fires. -/
theorem C6_die_policy_gate (dm : DockerMonitor) (ev : DockerEvent) (now : Int)
    (c : Config) (info : ContainerExecInfo)
    (h : mapLookup dm.execMap (getAttr ev.actor "execID") = some info) :
    ((handleExecDie dm ev now (some c)).2 ≠ [] ↔
      ShouldNotify (now - info.startTime) c = true) ∧
    (c.general.enableNotify = true →
      now - info.startTime = c.general.minDurationTime →
      (handleExecDie dm ev now (some c)).2 ≠ []) := by
  have hmain : (handleExecDie dm ev now (some c)).2 ≠ [] ↔
      ShouldNotify (now - info.startTime) c = true := by
    simp only [handleExecDie, h, ShouldNotify]
    by_cases hb : (decide (c.general.minDurationTime ≤ now - info.startTime) &&
        c.general.enableNotify) = true
    · simp [hb]
    · simp [hb]
  refine ⟨hmain, fun he hd => ?_⟩
  rw [hmain]
  simp only [ShouldNotify, hd, he]
  simp

/-- C6 at the boundary: record started at 100, dying exactly
`minimumDuration` later under the default config — the notification
fires. -/
theorem C6_die_policy_gate_witness :
    (handleExecDie dmW evDieW (100 + 15 * second) (some getDefaultConfig)).2 ≠ [] :=
  (C6_die_policy_gate dmW evDieW (100 + 15 * second) getDefaultConfig infoW
    (by rfl)).2 (by rfl) (by decide)

/-- C9: a die fact arriving while `startedAt` is still the zero value
is processed normally — the record is removed from the working set
and the computed duration is `now - 0 = now`, the full distance from
the epoch (artificially large), with no crash (the handler is a total
function). -/
theorem C9_zero_start_duration (dm : DockerMonitor) (ev : DockerEvent) (now : Int)
    (cfg : Option Config) (info : ContainerExecInfo)
    (h : mapLookup dm.execMap (getAttr ev.actor "execID") = some info)
    (h0 : info.startTime = 0) :
    ((handleExecDie dm ev now cfg).1).execMap =
      mapErase dm.execMap (getAttr ev.actor "execID") ∧
    ∀ n ∈ (handleExecDie dm ev now cfg).2, n.duration = now := by
  constructor
  · simp [handleExecDie, h]
  · intro n hn
    simp only [handleExecDie, h] at hn
    split at hn
    · simp only [List.mem_singleton] at hn
      subst hn
      simp [h0]
    · simp at hn

/-- C9 instantiated: the never-started record of `dmW0` dies at the
large instant `10 ^ 18`; the record is removed and the computed
duration is the full `10 ^ 18` nanoseconds. -/
theorem C9_zero_start_duration_witness :
    ((handleExecDie dmW0 evDieW (10 ^ 18) (some getDefaultConfig)).1).execMap =
      mapErase dmW0.execMap (getAttr evDieW.actor "execID") ∧
    ∀ n ∈ (handleExecDie dmW0 evDieW (10 ^ 18) (some getDefaultConfig)).2,
      n.duration = 10 ^ 18 :=
  C9_zero_start_duration dmW0 evDieW (10 ^ 18) (some getDefaultConfig) infoW0
    (by rfl) (by rfl)

/-- C1 is refuted at a concrete input: with notifications disabled in
the config (`cfgDisabled`) and a reported duration of 20 seconds, the
spec gate `ShouldNotify` is false, yet the HTTP `/notify` path still
dispatches exactly one notification — the gate is not applied
uniformly across event sources. -/
theorem C1_uniform_gate_counterexample :
    (handleNotification HttpMethod.post (some rawValid)).2 =
      [{ command := "sleep 20", containerName := "devbox",
         duration := 20 * second, success := true }] ∧
    ShouldNotify (20 * second) cfgDisabled = false := by
  exact ⟨by decide, by decide⟩

/-- C1 (amended): the three event sources do not share one gate.  The
Docker `exec_die` path dispatches iff the global config is loaded and
the spec gate `ShouldNotify` passes; the local-command path dispatches
iff the duration reaches the hardcoded `MIN_DURATION` constant,
ignoring the config entirely; the HTTP `/notify` path dispatches for
every valid request, with no duration threshold and no enabled
check. -/
theorem C1_policy_gate_per_source :
    (∀ (dm : DockerMonitor) (ev : DockerEvent) (now : Int) (cfg : Option Config)
      (info : ContainerExecInfo),
      mapLookup dm.execMap (getAttr ev.actor "execID") = some info →
      ((handleExecDie dm ev now cfg).2 ≠ [] ↔
        ∃ c, cfg = some c ∧ ShouldNotify (now - info.startTime) c = true)) ∧
    (∀ (command : String) (code : Nat) (d : Duration),
      (executeCommand command code d).any LocalEvent.isNotifyCall = true ↔
        MIN_DURATION ≤ d) ∧
    (∀ (raw : RawNotificationBody) (d : Duration),
      (decodeNotificationRequest raw).command ≠ "" →
      (decodeNotificationRequest raw).duration ≠ "" →
      parseDuration (decodeNotificationRequest raw).duration = some d →
      (handleNotification HttpMethod.post (some raw)).2.length = 1) := by
  refine ⟨?_, ?_, ?_⟩
  · intro dm ev now cfg info h
    cases cfg with
    | none => simp [handleExecDie, h]
    | some c =>
      simp only [handleExecDie, h, Option.some.injEq]
      have hr : (∃ c2, c = c2 ∧ ShouldNotify (now - info.startTime) c2 = true) ↔
          ShouldNotify (now - info.startTime) c = true := by simp
      rw [hr]
      by_cases hb : (decide (c.general.minDurationTime ≤ now - info.startTime) &&
          c.general.enableNotify) = true
      · rw [if_pos hb]
        exact iff_of_true (by simp) hb
      · rw [if_neg hb]
        exact iff_of_false (by simp) hb
  · intro command code d
    by_cases hd : MIN_DURATION ≤ d <;>
      simp [executeCommand, hd, LocalEvent.isNotifyCall]
  · intro raw d h1 h2 h3
    simp [handleNotification, h1, h2, h3]

/-- C1 (amended) instantiated: the Docker gate characterization on a
concrete record, the local path at 20 seconds, and a valid HTTP
request dispatching once. -/
theorem C1_policy_gate_per_source_witness :
    ((handleExecDie dmW evDieW (100 + 20 * second) (some getDefaultConfig)).2 ≠ [] ↔
      ∃ c, (some getDefaultConfig : Option Config) = some c ∧
        ShouldNotify ((100 + 20 * second) - infoW.startTime) c = true) ∧
    ((executeCommand "make" 0 (20 * second)).any LocalEvent.isNotifyCall = true ↔
      MIN_DURATION ≤ 20 * second) ∧
    (handleNotification HttpMethod.post (some rawValid)).2.length = 1 :=
  ⟨C1_policy_gate_per_source.1 dmW evDieW (100 + 20 * second) (some getDefaultConfig)
      infoW (by rfl),
   C1_policy_gate_per_source.2.1 "make" 0 (20 * second),
   C1_policy_gate_per_source.2.2 rawValid 20000000000 (by decide) (by decide) (by rfl)⟩

/-- C2 is refuted at a concrete input: a valid `/notify` body that
omits the `success` field dispatches a notification reporting
`success = false` (the Go zero value), not `true`. -/
theorem C2_success_default_counterexample :
    ((handleNotification HttpMethod.post (some rawNoSuccess)).2.map
      Notification.success) = [false] := by
  rfl

/-- C2 (amended): when the JSON body omits the `success` field and the
`command`/`duration` fields are valid, the dispatched notification
reports failure — `success` defaults to the Go zero value `false`,
not `true`. -/
theorem C2_success_omitted_defaults_false (raw : RawNotificationBody) (d : Duration)
    (hs : raw.success = none)
    (h1 : (decodeNotificationRequest raw).command ≠ "")
    (h2 : (decodeNotificationRequest raw).duration ≠ "")
    (h3 : parseDuration (decodeNotificationRequest raw).duration = some d) :
    ((handleNotification HttpMethod.post (some raw)).2.map Notification.success) =
      [false] := by
  have hsucc : (decodeNotificationRequest raw).success = false := by
    simp [decodeNotificationRequest, hs]
  simp [handleNotification, h1, h2, h3, hsucc]

/-- C2 (amended) instantiated on the concrete body `rawNoSuccess`. -/
theorem C2_success_omitted_defaults_false_witness :
    ((handleNotification HttpMethod.post (some rawNoSuccess)).2.map
      Notification.success) = [false] :=
  C2_success_omitted_defaults_false rawNoSuccess 20000000000 (by rfl) (by decide)
    (by decide) (by rfl)

/-- C4: the working set keeps at most one record per `executionID`
(key uniqueness is preserved by all three handlers); a die fact
removes the record for its id unconditionally — afterwards the lookup
is `none` regardless of whether the policy gate passed; and after any
sequence of create/start/die triples for distinct ids, starting from
the fresh monitor, the working set is empty again and each triple
dispatched at most one notification. -/
theorem C4_record_uniqueness_and_cleanup :
    (∀ (dm : DockerMonitor) (ev : DockerEvent) (r : Except String String) (now : Int)
      (cfg : Option Config), dm.wf →
      ((handleExecCreate dm ev r).1).wf ∧ ((handleExecStart dm ev now).1).wf ∧
      ((handleExecDie dm ev now cfg).1).wf) ∧
    (∀ (dm : DockerMonitor) (ev : DockerEvent) (now : Int) (cfg : Option Config),
      mapLookup ((handleExecDie dm ev now cfg).1).execMap
        (getAttr ev.actor "execID") = none) ∧
    (∀ (cfg : Option Config) (ts : List TripleInput),
      (ts.map TripleInput.execID).Nodup →
      (processTriples cfg newDockerMonitor ts).1.execMap = [] ∧
      ∀ l ∈ (processTriples cfg newDockerMonitor ts).2, l.length ≤ 1) := by
  refine ⟨fun dm ev r now cfg h =>
      ⟨wf_handleExecCreate dm ev r h, wf_handleExecStart dm ev now h,
        wf_handleExecDie dm ev now cfg h⟩,
    handleExecDie_lookup_after, fun cfg ts _ => ?_⟩
  have hp := processTriples_from_empty cfg ts
  exact ⟨by rw [hp.1]; rfl, hp.2⟩

/-- C4 instantiated: handler preservation on the one-record working
set, unconditional removal, and one full triple from the fresh
monitor. -/
theorem C4_record_uniqueness_and_cleanup_witness :
    (((handleExecCreate dmW evCreateW (Except.ok "/devbox")).1).wf ∧
      ((handleExecStart dmW evCreateW 7).1).wf ∧
      ((handleExecDie dmW evCreateW 7 (some getDefaultConfig)).1).wf) ∧
    mapLookup ((handleExecDie dmW evDieW 7 (some getDefaultConfig)).1).execMap
      (getAttr evDieW.actor "execID") = none ∧
    ((processTriples (some getDefaultConfig) newDockerMonitor [tripleW]).1.execMap = [] ∧
      ∀ l ∈ (processTriples (some getDefaultConfig) newDockerMonitor [tripleW]).2,
        l.length ≤ 1) :=
  ⟨C4_record_uniqueness_and_cleanup.1 dmW evCreateW (Except.ok "/devbox") 7
      (some getDefaultConfig)
      (show ((dmW.execMap.map Prod.fst).Nodup) by decide),
   C4_record_uniqueness_and_cleanup.2.1 dmW evDieW 7 (some getDefaultConfig),
   C4_record_uniqueness_and_cleanup.2.2 (some getDefaultConfig) [tripleW] (by decide)⟩

/-- C7: `handleNotification` returns 405 with no dispatch for every
non-POST request; 400 with no dispatch whenever the decoded body has
an empty `command`, an empty `duration`, or an unparseable
`duration`; and for every well-formed body it returns 200 with
`{status:"success", message:"Notification sent"}` and dispatches
exactly one notification. -/
theorem C7_http_validation :
    (∀ (m : HttpMethod) (b : Option RawNotificationBody), m ≠ HttpMethod.post →
      (handleNotification m b).1.status = 405 ∧ (handleNotification m b).2 = []) ∧
    (∀ raw : RawNotificationBody,
      ((decodeNotificationRequest raw).command = "" ∨
        (decodeNotificationRequest raw).duration = "" ∨
        parseDuration (decodeNotificationRequest raw).duration = none) →
      (handleNotification HttpMethod.post (some raw)).1.status = 400 ∧
      (handleNotification HttpMethod.post (some raw)).2 = []) ∧
    (∀ (raw : RawNotificationBody) (d : Duration),
      (decodeNotificationRequest raw).command ≠ "" →
      (decodeNotificationRequest raw).duration ≠ "" →
      parseDuration (decodeNotificationRequest raw).duration = some d →
      (handleNotification HttpMethod.post (some raw)).1 =
        { status := 200, body := ResponseBody.jsonStatus "success" "Notification sent" } ∧
      (handleNotification HttpMethod.post (some raw)).2.length = 1) := by
  refine ⟨?_, ?_, ?_⟩
  · intro m b hm
    constructor <;> simp [handleNotification, hm]
  · intro raw h
    by_cases h1 : (decodeNotificationRequest raw).command = ""
    · constructor <;> simp [handleNotification, h1]
    · by_cases h2 : (decodeNotificationRequest raw).duration = ""
      · constructor <;> simp [handleNotification, h1, h2]
      · have h3 : parseDuration (decodeNotificationRequest raw).duration = none := by
          rcases h with h | h | h
          · exact absurd h h1
          · exact absurd h h2
          · exact h
        constructor <;> simp [handleNotification, h1, h2, h3]
  · intro raw d h1 h2 h3
    constructor <;> simp [handleNotification, h1, h2, h3]

/-- C7 instantiated: a GET is rejected with 405, a body with no
`duration` is rejected with 400 and no dispatch, and the valid body
`rawValid` gets 200 with the success JSON and one dispatch. -/
theorem C7_http_validation_witness :
    ((handleNotification HttpMethod.get (some rawValid)).1.status = 405 ∧
      (handleNotification HttpMethod.get (some rawValid)).2 = []) ∧
    ((handleNotification HttpMethod.post (some rawMissingDuration)).1.status = 400 ∧
      (handleNotification HttpMethod.post (some rawMissingDuration)).2 = []) ∧
    ((handleNotification HttpMethod.post (some rawValid)).1 =
        { status := 200, body := ResponseBody.jsonStatus "success" "Notification sent" } ∧
      (handleNotification HttpMethod.post (some rawValid)).2.length = 1) :=
  ⟨C7_http_validation.1 HttpMethod.get (some rawValid) (by decide),
   C7_http_validation.2.1 rawMissingDuration (Or.inr (Or.inl (by rfl))),
   C7_http_validation.2.2 rawValid 20000000000 (by decide) (by decide) (by rfl)⟩

/-- C8: every notifier invocation emits the console line first, makes
exactly one platform-specific alert attempt, and a failing attempt
only appends a log line to the trace — the function returns normally
in both outcomes, so no error ever propagates to the caller. -/
theorem C8_notifier_best_effort (command containerName : String) (duration : Duration)
    (success : Bool) (r : Except String Unit) (e : String) :
    ((sendNotification command duration success r).head?.map NotifyEffect.isConsole =
      some true) ∧
    (sendNotification command duration success r).countP NotifyEffect.isNative = 1 ∧
    sendNotification command duration success (Except.error e) =
      sendNotification command duration success (Except.ok ()) ++
        [NotifyEffect.logFailure e] ∧
    ((sendContainerNotification command containerName duration success r).head?.map
      NotifyEffect.isConsole = some true) ∧
    (sendContainerNotification command containerName duration success r).countP
      NotifyEffect.isNative = 1 ∧
    sendContainerNotification command containerName duration success (Except.error e) =
      sendContainerNotification command containerName duration success (Except.ok ()) ++
        [NotifyEffect.logFailure e] := by
  cases r with
  | ok u =>
    cases u
    refine ⟨?_, ?_, ?_, ?_, ?_, ?_⟩ <;>
      simp [sendNotification, sendContainerNotification, NotifyEffect.isConsole,
        NotifyEffect.isNative, List.countP_cons]
  | error e2 =>
    refine ⟨?_, ?_, ?_, ?_, ?_, ?_⟩ <;>
      simp [sendNotification, sendContainerNotification, NotifyEffect.isConsole,
        NotifyEffect.isNative, List.countP_cons]

/-- C10: the wrapper process of the local path exits with status 0
when the child succeeded and with status exactly 1 when the child
failed, whatever the child's nonzero exit code was; and when the
duration threshold is met, the failure notification call appears in
the trace strictly before the final exit step. -/
theorem C10_wrapper_exit_status (command : String) (code : Nat) (d : Duration) :
    (executeCommand command code d).getLast? =
      some (LocalEvent.exitProc (if code = 0 then 0 else 1)) ∧
    (code ≠ 0 → MIN_DURATION ≤ d →
      LocalEvent.notifyCall command d false ∈ (executeCommand command code d).dropLast) := by
  by_cases hd : MIN_DURATION ≤ d
  · constructor
    · simp [executeCommand, hd]
    · intro hc _
      simp [executeCommand, hd, hc, List.dropLast]
  · constructor
    · simp [executeCommand, hd]
    · intro _ hd2
      exact absurd hd2 hd

/-- C10 instantiated: child exit code 2 after 20 seconds — the wrapper
exit status is 1 and the failure notification precedes the exit. -/
theorem C10_wrapper_exit_status_witness :
    (executeCommand "make" 2 (20 * second)).getLast? =
      some (LocalEvent.exitProc (if 2 = 0 then 0 else 1)) ∧
    LocalEvent.notifyCall "make" (20 * second) false ∈
      (executeCommand "make" 2 (20 * second)).dropLast :=
  ⟨(C10_wrapper_exit_status "make" 2 (20 * second)).1,
   (C10_wrapper_exit_status "make" 2 (20 * second)).2 (by decide) (by decide)⟩

end CmdBell
